import Mathlib

/-!
Verification of the Lumina feed composition and persistence engine
(`src/App.tsx`) against its natural-language specification.

Shallow embedding conventions:
* JavaScript numbers are modelled as `ℚ`.  The floating-point haversine
  helper `getDistanceFromLatLonInKm` computes with transcendental
  functions, so it is abstracted as an arbitrary parameter
  `dist : ℚ → ℚ → ℚ → ℚ → ℚ`; every ordering statement below is proved
  for all such functions, hence in particular for the haversine one.
* `Array.prototype.sort` with a consistent comparator is (per the
  ECMAScript specification) a stable sort; it is modelled with
  the stable `List.insertionSort` of Mathlib, whose output is the unique
  stable sorted rearrangement.
* The shuffle comparator `() => Math.random() - 0.5` is modelled as a
  comparison sort that consumes an explicit stream of booleans
  (`coins : ℕ → Bool`), one per comparison; the stream is passed in
  explicitly, so every possible outcome of the randomisation is covered
  by quantifying over it.
* `localStorage` and geolocation are modelled by explicit state and
  parameters.
-/

namespace Lumina

/-- Photo category. Modelled from the spec: the `Category` enumeration
lives in `src/types.ts`, which is not part of the provided sources; the
spec describes it as a closed enumeration of concrete categories
(landscape, macro, ...) plus the pseudo-categories all / horizontal /
vertical used only as filter predicates.  The `MACRO` member is named
`closeup` here because its source name collides with a Lean keyword. -/
inductive Category where
  | all
  | horizontal
  | vertical
  | landscape
  | closeup
  deriving DecidableEq, Repr

/-- The `exif` record of a photo (`src/types.ts` via its use in
`src/App.tsx`).  The free-text fields are kept as strings; `latitude`
and `longitude` are optional numbers. -/
structure Exif where
  camera : String
  lens : String
  focalLength : String
  aperture : String
  shutterSpeed : String
  iso : String
  location : String
  date : String
  latitude : Option ℚ
  longitude : Option ℚ
  deriving DecidableEq, Repr

/-- A `Photo` record as used by `src/App.tsx`.  `width`, `height` and
`rating` are optional: the source guards every read with `|| 0`. -/
structure Photo where
  id : String
  url : String
  title : String
  category : Category
  width : Option ℚ
  height : Option ℚ
  rating : Option ℚ
  exif : Exif
  deriving DecidableEq, Repr

/-- JavaScript `x || 0` on an optional number.  The only falsy finite
number is `0`, which `getD 0` maps to `0` as well, so the two coincide
on every value this program stores. -/
def numOr0 (x : Option ℚ) : ℚ := x.getD 0

/-- `(p.rating || 0)` as used at `src/App.tsx:259-260`. -/
def ratingOr0 (p : Photo) : ℚ := numOr0 p.rating

/-- JavaScript truthiness of an optional number: `undefined` and `0`
are falsy, every other value is truthy. -/
def truthyNum : Option ℚ → Bool
  | none => false
  | some v => v != 0

/-- The guard `a.exif.latitude && a.exif.longitude` at
`src/App.tsx:279` (and `:282`): both coordinates must be present *and*
nonzero for the photo to count as located. -/
def hasCoords (p : Photo) : Bool :=
  truthyNum p.exif.latitude && truthyNum p.exif.longitude

/-- The sort key computed at `src/App.tsx:279-284`: the distance from
the user to the photo when the photo is located (by truthiness), and
the sentinel `99999` otherwise.  `dist` abstracts the floating-point
`getDistanceFromLatLonInKm`. -/
def distOrSentinel (dist : ℚ → ℚ → ℚ → ℚ → ℚ) (loc : ℚ × ℚ) (p : Photo) : ℚ :=
  if hasCoords p then
    dist loc.1 loc.2 (p.exif.latitude.getD 0) (p.exif.longitude.getD 0)
  else 99999

/-- The category filter predicate at `src/App.tsx:249-254`. -/
def categoryPred (activeCategory : Category) (p : Photo) : Bool :=
  match activeCategory with
  | .all => true
  | .horizontal => decide (numOr0 p.height ≤ numOr0 p.width)
  | .vertical => decide (numOr0 p.width < numOr0 p.height)
  | c => p.category == c

/-- The five feed tabs (`FEED_TABS` at `src/App.tsx:99`):
精选 / 最新 / 随览 / 附近 / 远方. -/
inductive Tab where
  | curated
  | latest
  | shuffle
  | nearby
  | faraway
  deriving DecidableEq, Repr

/-- Ascending comparison by a rational-valued key: the relation under
which a JavaScript stable sort with comparator `(a, b) => k a - k b`
orders its output. -/
def keyLe (k : α → ℚ) (a b : α) : Prop := k a ≤ k b

/-- Descending comparison by a rational-valued key: the relation under
which a JavaScript stable sort with comparator `(a, b) => k b - k a`
orders its output. -/
def keyGe (k : α → ℚ) (a b : α) : Prop := k b ≤ k a

instance (k : α → ℚ) : DecidableRel (keyLe k) :=
  fun a b => inferInstanceAs (Decidable (k a ≤ k b))

instance (k : α → ℚ) : DecidableRel (keyGe k) :=
  fun a b => inferInstanceAs (Decidable (k b ≤ k a))

instance (k : α → ℚ) : IsTotal α (keyLe k) := ⟨fun a b => le_total (k a) (k b)⟩

instance (k : α → ℚ) : IsTotal α (keyGe k) := ⟨fun a b => (le_total (k b) (k a)).imp id id⟩

instance (k : α → ℚ) : IsTrans α (keyLe k) :=
  ⟨fun _ _ _ h h2 => le_trans h h2⟩

instance (k : α → ℚ) : IsTrans α (keyGe k) :=
  ⟨fun _ _ _ h h2 => le_trans h2 h⟩

/-- One step of the insertion used to model
`[...result].sort(() => Math.random() - 0.5)` (`src/App.tsx:272`):
inserting `x` into `l`, consuming one boolean from the stream `coins`
per comparison (`true` places `x` before the element under
comparison, modelling a negative comparator result). -/
def coinInsert (coins : ℕ → Bool) (x : α) : List α → ℕ → List α × ℕ
  | [], n => ([x], n)
  | y :: ys, n =>
    if coins n then (x :: y :: ys, n + 1)
    else
      let r := coinInsert coins x ys (n + 1)
      (y :: r.1, r.2)

/-- Comparison sort driven by the boolean stream `coins`; models the
randomised `sort` call of the 随览 (shuffle) tab.  Whatever the stream,
the output is a rearrangement of the input, which is all the claims
rely on. -/
def coinSort (coins : ℕ → Bool) : List α → ℕ → List α × ℕ
  | [], n => ([], n)
  | x :: xs, n =>
    let s := coinSort coins xs n
    coinInsert coins x s.1 s.2

/-- The shuffled copy `[...result].sort(() => Math.random() - 0.5)`
(`src/App.tsx:272`), with the randomisation outcomes supplied as
`coins`. -/
def shuffleModel (coins : ℕ → Bool) (l : List α) : List α :=
  (coinSort coins l 0).1

/-- `PAGE_SIZE` (`src/App.tsx:96`). -/
def PAGE_SIZE : ℕ := 9

/-- The `filteredPhotos` memo (`src/App.tsx:248-296`): category filter
followed by the per-tab ordering.
* 精选 (curated): keep `(p.rating || 0) >= 4`, stable sort descending
  by rating (`src/App.tsx:259-260`).
* 最新 (latest): collection order, unchanged (`src/App.tsx:263-266`).
* 随览 (shuffle): randomised rearrangement (`src/App.tsx:268-273`);
  `shuffleTrigger` is only a recomputation dependency in the source and
  does not enter the computation.
* 附近 / 远方 (nearby / faraway): when `userLocation` is resolved,
  stable sort by `distOrSentinel`, ascending for 附近 and descending
  for 远方 (`src/App.tsx:275-289`); otherwise the order is unchanged.
The source writes the two distance tabs as one `case` with the
comparator direction chosen by comparing `activeTab` with 附近; they are
spelled as two arms here with exactly those two comparator directions. -/
def filteredPhotos (dist : ℚ → ℚ → ℚ → ℚ → ℚ) (photos : List Photo)
    (activeCategory : Category) (activeTab : Tab) (shuffleTrigger : ℕ)
    (coins : ℕ → Bool) (userLocation : Option (ℚ × ℚ)) : List Photo :=
  let result := photos.filter (categoryPred activeCategory)
  match activeTab with
  | .curated =>
    List.insertionSort (keyGe ratingOr0)
      (result.filter fun p => decide (4 ≤ ratingOr0 p))
  | .latest => result
  | .shuffle => shuffleModel coins result
  | .nearby =>
    match userLocation with
    | some loc => List.insertionSort (keyLe (distOrSentinel dist loc)) result
    | none => result
  | .faraway =>
    match userLocation with
    | some loc => List.insertionSort (keyGe (distOrSentinel dist loc)) result
    | none => result

/-- Placeholder photo used as the out-of-range default of list
indexing below; the index is always in range, so it never appears in
any collection. -/
def placeholderPhoto : Photo :=
  { id := "", url := "", title := "", category := .all,
    width := none, height := none, rating := none,
    exif := { camera := "", lens := "", focalLength := "", aperture := "",
              shutterSpeed := "", iso := "", location := "", date := "",
              latitude := none, longitude := none } }

/-- `BASE_PHOTOS` (`src/App.tsx:30-70`), field for field. -/
def BASE_PHOTOS : List Photo :=
  [ { id := "1", url := "https://picsum.photos/id/16/800/600",
      title := "迷雾山脉", category := .landscape,
      width := some 800, height := some 600, rating := some 5,
      exif := { camera := "Leica M11", lens := "Summilux 35mm",
                focalLength := "35mm", aperture := "f/5.6",
                shutterSpeed := "1/250s", iso := "100",
                location := "阿尔卑斯, 瑞士", date := "2023-10-12",
                latitude := some 46.8182, longitude := some 8.2275 } },
    { id := "4", url := "https://picsum.photos/id/28/900/600",
      title := "深林", category := .landscape,
      width := some 900, height := some 600, rating := some 4,
      exif := { camera := "Canon R5", lens := "15-35mm",
                focalLength := "15mm", aperture := "f/8",
                shutterSpeed := "1/4s", iso := "50",
                location := "俄勒冈, 美国", date := "2023-08-15",
                latitude := some 43.8041, longitude := some (-120.5542) } },
    { id := "5", url := "https://picsum.photos/id/106/800/600",
      title := "霓虹雨夜", category := .closeup,
      width := some 800, height := some 600, rating := some 3,
      exif := { camera := "Nikon Z8", lens := "105mm Macro",
                focalLength := "105mm", aperture := "f/4",
                shutterSpeed := "1/200s", iso := "400",
                location := "伦敦, 英国", date := "2023-12-01",
                latitude := some 51.5074, longitude := some (-0.1278) } } ]

/-- `GENERATED_PHOTOS` (`src/App.tsx:73-93`).  The source draws each
latitude and longitude offset from `Math.random`; the offsets are
passed in explicitly here.  `(base.exif.latitude || 0)` coincides with
`getD 0` on every number (see `numOr0`). -/
def GENERATED_PHOTOS (offsets : ℕ → ℚ × ℚ) : List Photo :=
  (List.range 25).map fun i =>
    let base := BASE_PHOTOS.getD (i % BASE_PHOTOS.length) placeholderPhoto
    { base with
      id := "gen-" ++ toString i,
      title := base.title ++ " " ++ toString (i + 1),
      url := "https://picsum.photos/id/" ++ toString ((i * 13) % 100 + 10)
               ++ "/800/600",
      width := some 800,
      height := some 600,
      exif := { base.exif with
        latitude := some (base.exif.latitude.getD 0 + (offsets i).1),
        longitude := some (base.exif.longitude.getD 0 + (offsets i).2) } }

/-- `INITIAL_PHOTOS` (`src/App.tsx:95`). -/
def INITIAL_PHOTOS (offsets : ℕ → ℚ × ℚ) : List Photo :=
  BASE_PHOTOS ++ GENERATED_PHOTOS offsets

/-- A JSON value, as produced by a successful `JSON.parse`. -/
inductive JsonVal where
  | jnull
  | jbool (b : Bool)
  | jnum (q : ℚ)
  | jstr (s : String)
  | jarr (elems : List JsonVal)
  | jobj (fields : List (String × JsonVal))

/-- `Array.isArray` on a parsed JSON value. -/
def isArray : JsonVal → Bool
  | .jarr _ => true
  | _ => false

/-- The observable state of the `lumina_photos` storage slot at load
time: `absent` covers `getItem` returning `null` (and the empty
string, which the `saved ?` guard also routes to the fallback),
`corrupt` covers a stored string on which `JSON.parse` throws, and
`value v` covers a stored string that parses to `v`. -/
inductive StorageSlot where
  | absent
  | corrupt
  | value (v : JsonVal)

/-- The `useState` initializer at `src/App.tsx:103-113`: return the
parsed stored value whenever it is an array (of anything — the source
comment calls this a simple validation that the value is an array),
and the seed `INITIAL_PHOTOS` otherwise; a `JSON.parse` exception is
caught and also yields the seed.  The result is a sum because the
stored array is used as-is, whatever its elements are. -/
def load (seed : List Photo) : StorageSlot → List JsonVal ⊕ List Photo
  | .absent => .inr seed
  | .corrupt => .inr seed
  | .value v =>
    match v with
    | .jarr elems => .inl elems
    | _ => .inr seed

/-- Modelled from the spec: "structurally a valid sequence of
Photo-shaped records" (§4.2).  A record is Photo-shaped when it is an
object carrying at least string `id` and `url` fields; this spec-side
predicate is used only to compare the claimed `load` contract with the
array-only check of the source, and any reasonable reading under which a
bare number is not Photo-shaped gives the same verdict. -/
def specPhotoShaped : JsonVal → Bool
  | .jobj fields =>
    (match fields.lookup "id" with
     | some (.jstr _) => true
     | _ => false) &&
    (match fields.lookup "url" with
     | some (.jstr _) => true
     | _ => false)
  | _ => false

/-- Modelled from the spec: a stored value that is a valid sequence of
Photo-shaped records (§4.2). -/
def specValidPhotoSequence : JsonVal → Bool
  | .jarr elems => elems.all specPhotoShaped
  | _ => false

/-- Outcome of one `localStorage.setItem` call, as classified by the
handler at `src/App.tsx:119-121`: success, a quota error (name
`QuotaExceededError` or code 22), or any other exception. -/
inductive WriteResult where
  | ok
  | quota
  | other
  deriving DecidableEq, Repr

/-- What the save effect surfaces to the user/session, one constructor
per exit of `src/App.tsx:116-147`. -/
inductive SaveNotice where
  /-- Silent success. -/
  | saved
  /-- Eviction succeeded: alert about the destructive cleanup followed
  by `window.location.reload()` (`src/App.tsx:133-135`). -/
  | cleanedAndReloaded
  /-- Nothing eligible for eviction: alert that storage is severely
  full and cannot be cleaned automatically (`src/App.tsx:137`). -/
  | exhaustedNoEvict
  /-- The retry itself threw: alert that saving failed because storage
  is full (`src/App.tsx:139-141`). -/
  | retryFailed
  /-- A non-quota error: logged only (`src/App.tsx:143-145`). -/
  | errorLogged
  deriving DecidableEq, Repr

/-- The test of `p.url` against the "data:image" prefix at
`src/App.tsx:128`: the photo is
inline-encoded (Base64) rather than network-referenced. -/
def isInline (p : Photo) : Bool := p.url.startsWith "data:image"

/-- The save effect with quota recovery (`src/App.tsx:116-147`).
`write` is the behaviour of `localStorage.setItem` on each payload,
`prior` the persisted content before the effect runs.  Returns the
persisted content afterwards together with the surfaced notice. -/
def saveWithRecovery (write : List Photo → WriteResult)
    (prior : Option (List Photo)) (photos : List Photo) :
    Option (List Photo) × SaveNotice :=
  match write photos with
  | .ok => (some photos, .saved)
  | .other => (prior, .errorLogged)
  | .quota =>
    let cleanPhotos := photos.filter fun p => !(isInline p)
    if cleanPhotos.length < photos.length then
      match write cleanPhotos with
      | .ok => (some cleanPhotos, .cleanedAndReloaded)
      | _ => (prior, .retryFailed)
    else
      (prior, .exhaustedNoEvict)

/-- `handleUpdatePhoto` as it acts on the collection
(`src/App.tsx:331-347`): replace every entry with the matching id, or
prepend when the id is new. -/
def handleUpdatePhoto (updatedPhoto : Photo) (prevPhotos : List Photo) :
    List Photo :=
  if prevPhotos.any fun p => p.id == updatedPhoto.id then
    prevPhotos.map fun p => if p.id == updatedPhoto.id then updatedPhoto else p
  else
    updatedPhoto :: prevPhotos

/-- State of the progressive-loading controller: the window size
`visibleCount` and the length of the current composed view. -/
structure PagState where
  visibleCount : ℕ
  viewLen : ℕ
  deriving DecidableEq, Repr

/-- Events acting on the pagination state:
* `reset n` — a composition-defining input (category, tab, shuffle
  trigger, view mode) changed and the new composed view has length
  `n`; the effect at `src/App.tsx:299-302` runs.
* `timerFire` — the 3000 ms fallback timer at `src/App.tsx:304-309`.
* `intersect` — the sentinel became visible
  (`src/App.tsx:311-323`). -/
inductive PagEvent where
  | reset (newLen : ℕ)
  | timerFire
  | intersect
  deriving DecidableEq, Repr

/-- One transition of the pagination controller.  A reset sets
`visibleCount` to `PAGE_SIZE` unconditionally
(`setVisibleCount(PAGE_SIZE)` at `src/App.tsx:300`); both triggers set
it to `min (prev + PAGE_SIZE) filteredPhotos.length`
(`src/App.tsx:306` and `:316`). -/
def pagStep (s : PagState) : PagEvent → PagState
  | .reset n => ⟨PAGE_SIZE, n⟩
  | .timerFire => ⟨min (s.visibleCount + PAGE_SIZE) s.viewLen, s.viewLen⟩
  | .intersect => ⟨min (s.visibleCount + PAGE_SIZE) s.viewLen, s.viewLen⟩

/-- Initial pagination state: `useState(PAGE_SIZE)`
(`src/App.tsx:168`) against a first composed view of length `len`. -/
def pagInit (len : ℕ) : PagState := ⟨PAGE_SIZE, len⟩

/-- The pagination state reached from the initial state by a sequence
of events. -/
def pagRun (len0 : ℕ) (evs : List PagEvent) : PagState :=
  evs.foldl pagStep (pagInit len0)

/-- A minimal concrete photo for witnesses: id, rating and coordinates
chosen per test. -/
def testPhoto (i : String) (r : ℚ) (lat lon : Option ℚ) : Photo :=
  { id := i, url := "https://example.com/" ++ i, title := i,
    category := .landscape, width := some 800, height := some 600,
    rating := some r,
    exif := { camera := "", lens := "", focalLength := "", aperture := "",
              shutterSpeed := "", iso := "", location := "", date := "",
              latitude := lat, longitude := lon } }

/-- A concrete stand-in for the abstracted distance function, used only
to instantiate universally quantified theorems on concrete inputs: it
returns the latitude of the target point, which is monotone in the test
photos below and — like every genuine haversine distance, all of which
are at most half the circumference, about 20015 km — stays below the
sentinel `99999` there. -/
def distProj : ℚ → ℚ → ℚ → ℚ → ℚ := fun _ _ lb _ => lb

/-- Constant coin stream for instantiating the shuffle randomness. -/
def coinsTrue : ℕ → Bool := fun _ => true

/-- Constant coin stream for instantiating the shuffle randomness. -/
def coinsFalse : ℕ → Bool := fun _ => false

/-- Test photo at latitude/longitude 1. -/
def pA : Photo := testPhoto "A" 5 (some 1) (some 1)

/-- Test photo with no coordinates at all. -/
def pB : Photo := testPhoto "B" 5 none none

/-- Test photo at latitude/longitude 3. -/
def pC : Photo := testPhoto "C" 5 (some 3) (some 3)

/-- Test photo at latitude/longitude 5. -/
def pD : Photo := testPhoto "D" 5 (some 5) (some 5)

/-- Test photo whose latitude is present but exactly 0. -/
def pZero : Photo := testPhoto "Z" 5 (some 0) (some 7)

/-- Test photo with both coordinate fields present, latitude exactly 0
(on the equator), longitude 5. -/
def pX0 : Photo := testPhoto "X0" 5 (some 0) (some 5)

/-- Test photo with both coordinate fields present and nonzero, at
latitude/longitude 50. -/
def pY : Photo := testPhoto "Y" 5 (some 50) (some 50)

/-- Test photos with assorted ratings for the curated-mode witnesses. -/
def r5 : Photo := testPhoto "r5" 5 (some 1) (some 1)

/-- Rating-4 test photo appearing first. -/
def r4a : Photo := testPhoto "r4a" 4 (some 1) (some 1)

/-- Rating-4 test photo appearing second. -/
def r4b : Photo := testPhoto "r4b" 4 (some 1) (some 1)

/-- Rating-3 test photo (excluded by the curated filter). -/
def r3 : Photo := testPhoto "r3" 3 (some 1) (some 1)

/-- Inline-encoded test photo (url carries a data:image payload). -/
def pInline : Photo :=
  { testPhoto "inline1" 5 none none with url := "data:image/png;base64,AAAA" }

/-- Network-referenced test photo. -/
def pNet : Photo :=
  { testPhoto "net1" 5 none none with url := "https://example.com/net1" }

/-- Test storage behaviour: a write of two or more photos exceeds the
quota, a smaller write succeeds. -/
def writeSmallOk : List Photo → WriteResult :=
  fun l => if l.length < 2 then .ok else .quota

/-- Test storage behaviour: every write exceeds the quota. -/
def writeAlwaysQuota : List Photo → WriteResult := fun _ => .quota

/-! ## Helper lemmas -/

/-- Inserting with a coin stream yields a rearrangement of `x :: l`,
whatever the stream says. -/
theorem coinInsert_fst_perm (coins : ℕ → Bool) (x : α) :
    ∀ (l : List α) (n : ℕ), ((coinInsert coins x l n).1).Perm (x :: l)
  | [], _ => by simp [coinInsert]
  | y :: ys, n => by
    rw [coinInsert]
    by_cases h : coins n
    · rw [if_pos h]
    · rw [if_neg h]
      exact ((coinInsert_fst_perm coins x ys (n + 1)).cons y).trans
        (List.Perm.swap x y ys)

/-- The coin-driven sort yields a rearrangement of its input, whatever
the stream says. -/
theorem coinSort_fst_perm (coins : ℕ → Bool) :
    ∀ (l : List α) (n : ℕ), ((coinSort coins l n).1).Perm l
  | [], _ => by simp [coinSort]
  | x :: xs, n => by
    rw [coinSort]
    exact (coinInsert_fst_perm coins x _ _).trans
      ((coinSort_fst_perm coins xs n).cons x)

/-- Filtering strictly shrinks a list exactly when some element fails
the predicate. -/
theorem length_filter_lt_iff_any (q : α → Bool) (l : List α) :
    (l.filter q).length < l.length ↔ l.any (fun a => !(q a)) = true := by
  induction l with
  | nil => simp
  | cons a l ih =>
    cases ha : q a with
    | true =>
      rw [List.filter_cons_of_pos (by simp [ha]), List.any_cons, ha]
      simpa [Nat.succ_lt_succ_iff] using ih
    | false =>
      rw [List.filter_cons_of_neg (by simp [ha]), List.any_cons, ha]
      simp only [Bool.not_false, Bool.true_or, iff_true, List.length_cons]
      exact Nat.lt_succ_of_le (List.length_filter_le q l)

/-- The pagination invariant `visibleCount ≤ max PAGE_SIZE viewLen` is
preserved by every event. -/
theorem pag_inv_fold (evs : List PagEvent) :
    ∀ s : PagState, s.visibleCount ≤ max PAGE_SIZE s.viewLen →
      (evs.foldl pagStep s).visibleCount
        ≤ max PAGE_SIZE (evs.foldl pagStep s).viewLen := by
  induction evs with
  | nil => exact fun s h => h
  | cons e evs ih =>
    intro s h
    refine ih (pagStep s e) ?_
    cases e with
    | reset n => exact le_max_left _ _
    | timerFire => exact le_trans (min_le_right _ _) (le_max_right _ _)
    | intersect => exact le_trans (min_le_right _ _) (le_max_right _ _)

/-- Concrete evaluation of `isInline` on the inline test photo.  The
`startsWith` loop is defined by well-founded recursion, so it is
unfolded step by step. -/
theorem isInline_pInline : isInline pInline = true := by
  show ("data:image/png;base64,AAAA".startsWith "data:image") = true
  show (true && String.substrEq.loop "data:image/png;base64,AAAA" "data:image"
    0 0 ⟨10⟩) = true
  rw [Bool.true_and]
  rw [String.substrEq.loop]; rw [dif_pos (by decide)]
  show (true && String.substrEq.loop _ _ ⟨1⟩ ⟨1⟩ ⟨10⟩) = true
  rw [Bool.true_and]
  rw [String.substrEq.loop]; rw [dif_pos (by decide)]
  show (true && String.substrEq.loop _ _ ⟨2⟩ ⟨2⟩ ⟨10⟩) = true
  rw [Bool.true_and]
  rw [String.substrEq.loop]; rw [dif_pos (by decide)]
  show (true && String.substrEq.loop _ _ ⟨3⟩ ⟨3⟩ ⟨10⟩) = true
  rw [Bool.true_and]
  rw [String.substrEq.loop]; rw [dif_pos (by decide)]
  show (true && String.substrEq.loop _ _ ⟨4⟩ ⟨4⟩ ⟨10⟩) = true
  rw [Bool.true_and]
  rw [String.substrEq.loop]; rw [dif_pos (by decide)]
  show (true && String.substrEq.loop _ _ ⟨5⟩ ⟨5⟩ ⟨10⟩) = true
  rw [Bool.true_and]
  rw [String.substrEq.loop]; rw [dif_pos (by decide)]
  show (true && String.substrEq.loop _ _ ⟨6⟩ ⟨6⟩ ⟨10⟩) = true
  rw [Bool.true_and]
  rw [String.substrEq.loop]; rw [dif_pos (by decide)]
  show (true && String.substrEq.loop _ _ ⟨7⟩ ⟨7⟩ ⟨10⟩) = true
  rw [Bool.true_and]
  rw [String.substrEq.loop]; rw [dif_pos (by decide)]
  show (true && String.substrEq.loop _ _ ⟨8⟩ ⟨8⟩ ⟨10⟩) = true
  rw [Bool.true_and]
  rw [String.substrEq.loop]; rw [dif_pos (by decide)]
  show (true && String.substrEq.loop _ _ ⟨9⟩ ⟨9⟩ ⟨10⟩) = true
  rw [Bool.true_and]
  rw [String.substrEq.loop]; rw [dif_pos (by decide)]
  show (true && String.substrEq.loop _ _ ⟨10⟩ ⟨10⟩ ⟨10⟩) = true
  rw [Bool.true_and]
  rw [String.substrEq.loop]; rw [dif_neg (by decide)]

/-- Concrete evaluation of `isInline` on the network test photo: the
first byte already differs from the inline prefix. -/
theorem isInline_pNet : isInline pNet = false := by
  show ("https://example.com/net1".startsWith "data:image") = false
  show (true && String.substrEq.loop "https://example.com/net1" "data:image"
    0 0 ⟨10⟩) = false
  rw [Bool.true_and]
  rw [String.substrEq.loop]; rw [dif_pos (by decide)]
  show (false && String.substrEq.loop _ _ _ _ _) = false
  rw [Bool.false_and]

/-! ## Claim theorems -/

/-- C1: the claim says a photo lacking coordinates sorts after all
located photos in both distance tabs.  This evaluation of the code
shows the opposite for the 远方 (Faraway) tab: with the user resolved
at (0,0), the located photo `pA` (distance key 1, below the sentinel,
as every genuine haversine distance is) and the coordinate-less photo
`pB` (sentinel key 99999) compose to `[pB, pA]` — the coordinate-less
photo comes first, because descending order puts the largest key
first.  This contradicts both the claim and the comment in the source
"Put photos without location at the end". -/
theorem C1_faraway_sentinel_first_eval :
    filteredPhotos distProj [pA, pB] Category.all Tab.faraway 0 coinsTrue
        (some (0, 0)) = [pB, pA]
    ∧ hasCoords pB = false
    ∧ hasCoords pA = true
    ∧ distOrSentinel distProj (0, 0) pB = 99999
    ∧ distOrSentinel distProj (0, 0) pA < 99999
    ∧ filteredPhotos distProj [pA, pB] Category.all Tab.nearby 0 coinsTrue
        (some (0, 0)) = [pA, pB] := by
  refine ⟨by decide, by decide, by decide, by decide, by decide, by decide⟩

/-- C2 counterexample: after a composition-defining change to a view of
length 3 (shorter than `PAGE_SIZE = 9`), the reset leaves
`visibleCount = 9 > 3`, so the claimed invariant
`windowSize ≤ len(orderedView)` fails at a reachable state. -/
theorem C2_windowSize_counterexample :
    (pagRun 20 [PagEvent.reset 3]).visibleCount = PAGE_SIZE
    ∧ (pagRun 20 [PagEvent.reset 3]).viewLen = 3
    ∧ ¬ (pagRun 20 [PagEvent.reset 3]).visibleCount
          ≤ (pagRun 20 [PagEvent.reset 3]).viewLen := by
  refine ⟨by decide, by decide, by decide⟩

/-- C2 (amended): at every reachable state of the pagination
controller, `visibleCount ≤ max PAGE_SIZE viewLen`; each advance by
either trigger is clamped to the length of the composed view (so after
an advance `visibleCount ≤ viewLen` holds); a composition-defining change
resets `visibleCount` to `PAGE_SIZE` unconditionally, which exceeds the
length of the view whenever the view is shorter than `PAGE_SIZE`. -/
theorem C2_windowSize_clamped (len0 : ℕ) (evs : List PagEvent)
    (s : PagState) (e : PagEvent) :
    (pagRun len0 evs).visibleCount
        ≤ max PAGE_SIZE (pagRun len0 evs).viewLen
    ∧ (e = PagEvent.timerFire ∨ e = PagEvent.intersect →
        (pagStep s e).visibleCount ≤ s.viewLen)
    ∧ (∀ n, pagStep s (PagEvent.reset n) = ⟨PAGE_SIZE, n⟩) := by
  refine ⟨pag_inv_fold evs (pagInit len0) (le_max_left _ _), ?_, fun _ => rfl⟩
  rintro (rfl | rfl) <;> exact min_le_right _ _

/-- C2 witness: the amended statement instantiated at concrete states
and events. -/
theorem C2_windowSize_clamped_witness :
    (pagStep ⟨9, 20⟩ PagEvent.timerFire).visibleCount ≤ (20 : ℕ)
    ∧ pagStep ⟨9, 20⟩ (PagEvent.reset 3) = ⟨PAGE_SIZE, 3⟩
    ∧ (pagRun 20 [PagEvent.reset 3]).visibleCount
        ≤ max PAGE_SIZE (pagRun 20 [PagEvent.reset 3]).viewLen :=
  ⟨(C2_windowSize_clamped 20 [] ⟨9, 20⟩ PagEvent.timerFire).2.1 (Or.inl rfl),
   (C2_windowSize_clamped 20 [] ⟨9, 20⟩ PagEvent.timerFire).2.2 3,
   (C2_windowSize_clamped 20 [PagEvent.reset 3] ⟨9, 20⟩ PagEvent.timerFire).1⟩

/-- C8: in every non-Shuffle tab, the composed view is a deterministic
function of the five declared inputs — it does not depend on the
randomisation stream at all, so composing twice with identical inputs
yields identical output. -/
theorem C8_compose_deterministic (dist : ℚ → ℚ → ℚ → ℚ → ℚ)
    (photos : List Photo) (cat : Category) (tab : Tab) (tr : ℕ)
    (coins₁ coins₂ : ℕ → Bool) (loc : Option (ℚ × ℚ))
    (h : tab ≠ Tab.shuffle) :
    filteredPhotos dist photos cat tab tr coins₁ loc
      = filteredPhotos dist photos cat tab tr coins₂ loc := by
  cases tab with
  | shuffle => exact absurd rfl h
  | curated => rfl
  | latest => rfl
  | nearby => rfl
  | faraway => rfl

/-- C8 witness: determinism instantiated at a concrete non-Shuffle tab
with two different coin streams. -/
theorem C8_compose_deterministic_witness :
    filteredPhotos distProj [pA] Category.all Tab.latest 0 coinsTrue none
      = filteredPhotos distProj [pA] Category.all Tab.latest 0 coinsFalse none :=
  C8_compose_deterministic distProj [pA] Category.all Tab.latest 0
    coinsTrue coinsFalse none (by decide)

/-- C9: in the distance tabs, a photo with a present-but-zero latitude
or longitude is treated as lacking coordinates — the truthiness test
fails, so it receives the sentinel key 99999 rather than a computed
distance. -/
theorem C9_zero_coordinate_sentinel (dist : ℚ → ℚ → ℚ → ℚ → ℚ)
    (loc : ℚ × ℚ) (p : Photo)
    (h : p.exif.latitude = some 0 ∨ p.exif.longitude = some 0) :
    hasCoords p = false ∧ distOrSentinel dist loc p = 99999 := by
  have hc : hasCoords p = false := by
    cases h with
    | inl h => simp [hasCoords, truthyNum, h]
    | inr h => simp [hasCoords, truthyNum, h]
  exact ⟨hc, by simp [distOrSentinel, hc]⟩

/-- C9 witness: the photo `pZero` has both coordinate fields present,
latitude exactly 0, and receives the sentinel. -/
theorem C9_zero_coordinate_sentinel_witness :
    hasCoords pZero = false ∧ distOrSentinel distProj (0, 0) pZero = 99999 :=
  C9_zero_coordinate_sentinel distProj (0, 0) pZero (Or.inl rfl)

/-- C10: in Shuffle mode the composed view is a rearrangement of the
category-filtered collection — same photos, same multiplicities, same
length — whatever the outcome of the randomisation. -/
theorem C10_shuffle_permutation (dist : ℚ → ℚ → ℚ → ℚ → ℚ)
    (photos : List Photo) (cat : Category) (tr : ℕ) (coins : ℕ → Bool)
    (loc : Option (ℚ × ℚ)) :
    (filteredPhotos dist photos cat Tab.shuffle tr coins loc).Perm
        (photos.filter (categoryPred cat))
    ∧ (∀ p : Photo,
        (filteredPhotos dist photos cat Tab.shuffle tr coins loc).count p
          = (photos.filter (categoryPred cat)).count p)
    ∧ (filteredPhotos dist photos cat Tab.shuffle tr coins loc).length
        = (photos.filter (categoryPred cat)).length := by
  have hp : (filteredPhotos dist photos cat Tab.shuffle tr coins loc).Perm
      (photos.filter (categoryPred cat)) :=
    coinSort_fst_perm coins (photos.filter (categoryPred cat)) 0
  exact ⟨hp, fun p => hp.count_eq p, hp.length_eq⟩

/-- C5 counterexample: the claim as stated — ordering guaranteed for
adjacent pairs whose coordinate fields are both *present* — is false.
With the user at (0,0), the Nearby view over `[pX0, pY]` composes to
`[pY, pX0]`: the adjacent photos both have both coordinate fields
present, yet the distance from the user to the first (50) exceeds the
distance to the second (0), because the present-but-zero latitude of
`pX0` fails the truthiness guard and routes it to the sentinel key
99999 instead of its actual distance. -/
theorem C5_present_zero_counterexample :
    filteredPhotos distProj [pX0, pY] Category.all Tab.nearby 0 coinsTrue
        (some (0, 0)) = [pY, pX0]
    ∧ (pY.exif.latitude).isSome = true
    ∧ (pY.exif.longitude).isSome = true
    ∧ (pX0.exif.latitude).isSome = true
    ∧ (pX0.exif.longitude).isSome = true
    ∧ ¬ distProj 0 0 (pY.exif.latitude.getD 0) (pY.exif.longitude.getD 0)
          ≤ distProj 0 0 (pX0.exif.latitude.getD 0)
              (pX0.exif.longitude.getD 0) := by
  refine ⟨by decide, by decide, by decide, by decide, by decide, by decide⟩

/-- C5 (amended): with the user location resolved, every pair of photos
in the Nearby view whose coordinates are both *truthy* — present and
nonzero, which is how the code tests presence — is ordered by
non-decreasing distance from the user, and the Faraway view orders such
pairs by the exact reverse comparison; a photo with a present-but-zero
coordinate instead carries the sentinel key (see the C5 counterexample
and C9).  Stated for all pairs (`Pairwise`), which subsumes the
adjacent pairs of the claim, and for every distance function, hence for
the haversine one. -/
theorem C5_distance_adjacent_order (dist : ℚ → ℚ → ℚ → ℚ → ℚ)
    (photos : List Photo) (cat : Category) (tr : ℕ) (coins : ℕ → Bool)
    (loc : ℚ × ℚ) :
    (filteredPhotos dist photos cat Tab.nearby tr coins (some loc)).Pairwise
        (fun a b => hasCoords a = true → hasCoords b = true →
          dist loc.1 loc.2 (a.exif.latitude.getD 0) (a.exif.longitude.getD 0)
            ≤ dist loc.1 loc.2 (b.exif.latitude.getD 0)
                (b.exif.longitude.getD 0))
    ∧ (filteredPhotos dist photos cat Tab.faraway tr coins (some loc)).Pairwise
        (fun a b => hasCoords a = true → hasCoords b = true →
          dist loc.1 loc.2 (b.exif.latitude.getD 0) (b.exif.longitude.getD 0)
            ≤ dist loc.1 loc.2 (a.exif.latitude.getD 0)
                (a.exif.longitude.getD 0)) := by
  constructor
  · show (List.insertionSort (keyLe (distOrSentinel dist loc))
      (photos.filter (categoryPred cat))).Pairwise _
    refine List.Pairwise.imp ?_
      (List.sorted_insertionSort (keyLe (distOrSentinel dist loc)) _)
    intro a b hab ha hb
    have hab2 : distOrSentinel dist loc a ≤ distOrSentinel dist loc b := hab
    rwa [distOrSentinel, if_pos ha, distOrSentinel, if_pos hb] at hab2
  · show (List.insertionSort (keyGe (distOrSentinel dist loc))
      (photos.filter (categoryPred cat))).Pairwise _
    refine List.Pairwise.imp ?_
      (List.sorted_insertionSort (keyGe (distOrSentinel dist loc)) _)
    intro a b hab ha hb
    have hab2 : distOrSentinel dist loc b ≤ distOrSentinel dist loc a := hab
    rwa [distOrSentinel, if_pos hb, distOrSentinel, if_pos ha] at hab2

/-- C5 witness: the ordering property instantiated on concrete composed
views — `[pA, pC]` in Nearby order and `[pD, pA]` in Faraway order. -/
theorem C5_distance_adjacent_order_witness :
    distProj 0 0 1 1 ≤ distProj 0 0 3 3
    ∧ distProj 0 0 1 1 ≤ distProj 0 0 5 5 := by
  constructor
  · have h := (C5_distance_adjacent_order distProj [pA, pC] Category.all 0
      coinsTrue (0, 0)).1
    rw [show filteredPhotos distProj [pA, pC] Category.all Tab.nearby 0
      coinsTrue (some (0, 0)) = [pA, pC] from by decide] at h
    exact (List.pairwise_cons.mp h).1 pC (by decide) (by decide) (by decide)
  · have h := (C5_distance_adjacent_order distProj [pA, pD] Category.all 0
      coinsTrue (0, 0)).2
    rw [show filteredPhotos distProj [pA, pD] Category.all Tab.faraway 0
      coinsTrue (some (0, 0)) = [pD, pA] from by decide] at h
    exact (List.pairwise_cons.mp h).1 pA (by decide) (by decide) (by decide)

/-- C6: in Curated mode every photo of the composed view has rating at
least 4 (in particular a present rating field), the view is sorted
non-increasing by rating, and photos with equal ratings keep their
original relative order (any equally rated pair in collection order
stays in that order in the view). -/
theorem C6_curated_filter_sort_stable (dist : ℚ → ℚ → ℚ → ℚ → ℚ)
    (photos : List Photo) (cat : Category) (tr : ℕ) (coins : ℕ → Bool)
    (loc : Option (ℚ × ℚ)) :
    (∀ p ∈ filteredPhotos dist photos cat Tab.curated tr coins loc,
        4 ≤ ratingOr0 p ∧ ∃ q, p.rating = some q ∧ 4 ≤ q)
    ∧ (filteredPhotos dist photos cat Tab.curated tr coins loc).Pairwise
        (fun a b => ratingOr0 b ≤ ratingOr0 a)
    ∧ (∀ a b, [a, b].Sublist photos → categoryPred cat a = true →
        categoryPred cat b = true → 4 ≤ ratingOr0 a →
        ratingOr0 a = ratingOr0 b →
        [a, b].Sublist
          (filteredPhotos dist photos cat Tab.curated tr coins loc)) := by
  refine ⟨?_, ?_, ?_⟩
  · intro p hp
    have hp2 : p ∈ (photos.filter (categoryPred cat)).filter
        (fun p => decide (4 ≤ ratingOr0 p)) :=
      (List.perm_insertionSort (keyGe ratingOr0) _).mem_iff.mp hp
    have h4 : 4 ≤ ratingOr0 p := by
      have hmem := (List.mem_filter.mp hp2).2
      simpa using hmem
    refine ⟨h4, ?_⟩
    cases hr : p.rating with
    | none =>
      rw [ratingOr0, numOr0, hr] at h4
      exact absurd h4 (by norm_num)
    | some q =>
      refine ⟨q, rfl, ?_⟩
      rwa [ratingOr0, numOr0, hr] at h4
  · show (List.insertionSort (keyGe ratingOr0) _).Pairwise _
    exact List.Pairwise.imp (fun h => h)
      (List.sorted_insertionSort (keyGe ratingOr0) _)
  · intro a b hab ha hb h4 heq
    have h1 : [a, b].Sublist (photos.filter (categoryPred cat)) := by
      have := hab.filter (categoryPred cat)
      rwa [List.filter_cons_of_pos (by simp [ha]),
           List.filter_cons_of_pos (by simp [hb]), List.filter_nil] at this
    have h2 : [a, b].Sublist ((photos.filter (categoryPred cat)).filter
        (fun p => decide (4 ≤ ratingOr0 p))) := by
      have := h1.filter (fun p => decide (4 ≤ ratingOr0 p))
      rwa [List.filter_cons_of_pos (by simpa using h4),
           List.filter_cons_of_pos (by simpa using heq ▸ h4),
           List.filter_nil] at this
    exact List.pair_sublist_insertionSort
      (show keyGe ratingOr0 a b from le_of_eq heq.symm) h2

/-- C6 witness: on the concrete collection `[r4a, r5, r4b, r3]` the
curated view keeps the rating-5 photo (rating at least 4) and preserves
the relative order of the two rating-4 photos. -/
theorem C6_curated_filter_sort_stable_witness :
    4 ≤ ratingOr0 r5
    ∧ [r4a, r4b].Sublist
        (filteredPhotos distProj [r4a, r5, r4b, r3] Category.all Tab.curated 0
          coinsTrue none) := by
  constructor
  · exact ((C6_curated_filter_sort_stable distProj [r4a, r5, r4b, r3]
      Category.all 0 coinsTrue none).1 r5 (by decide)).1
  · exact (C6_curated_filter_sort_stable distProj [r4a, r5, r4b, r3]
      Category.all 0 coinsTrue none).2.2 r4a r4b (by decide) (by decide)
      (by decide) (by decide) (by decide)

/-- C7: `handleUpdatePhoto` (upsert).  When a photo with the same id
exists it is replaced in place — same length, same id sequence, every
position with the matching id now holds the update, every other
position is untouched.  When the id is new the photo is inserted at
index 0, the collection grows by one entry, and every prior photo keeps
its position shifted by one (hence the original relative order). -/
theorem C7_upsert (u : Photo) (prev : List Photo) :
    ((prev.any fun p => p.id == u.id) = true →
        (handleUpdatePhoto u prev).length = prev.length
        ∧ (handleUpdatePhoto u prev).map Photo.id = prev.map Photo.id
        ∧ (∀ (i : ℕ) (p : Photo), prev[i]? = some p → p.id = u.id →
            (handleUpdatePhoto u prev)[i]? = some u)
        ∧ (∀ (i : ℕ) (p : Photo), prev[i]? = some p → ¬ p.id = u.id →
            (handleUpdatePhoto u prev)[i]? = some p))
    ∧ ((prev.any fun p => p.id == u.id) = false →
        handleUpdatePhoto u prev = u :: prev
        ∧ (handleUpdatePhoto u prev).length = prev.length + 1
        ∧ (handleUpdatePhoto u prev)[0]? = some u
        ∧ (∀ (i : ℕ) (p : Photo), prev[i]? = some p →
            (handleUpdatePhoto u prev)[i + 1]? = some p)) := by
  constructor
  · intro hex
    rw [handleUpdatePhoto, if_pos hex]
    refine ⟨List.length_map _ _, ?_, ?_, ?_⟩
    · rw [List.map_map]
      refine List.map_congr_left ?_
      intro p _
      show Photo.id (if (p.id == u.id) = true then u else p) = p.id
      by_cases hp : (p.id == u.id) = true
      · rw [if_pos hp]
        exact (beq_iff_eq.mp hp).symm
      · rw [if_neg hp]
    · intro i p hip hpid
      rw [List.getElem?_map, hip, Option.map_some']
      rw [if_pos (beq_iff_eq.mpr hpid)]
    · intro i p hip hpid
      rw [List.getElem?_map, hip, Option.map_some']
      rw [if_neg (by simpa using hpid)]
  · intro hnew
    rw [handleUpdatePhoto, if_neg (by simp [hnew])]
    exact ⟨rfl, rfl, by simp, fun i p hip => by simpa using hip⟩

/-- C7 witness: upsert with a brand-new id on a collection of 5 yields
6 entries with the new photo at index 0 and the prior photos intact. -/
theorem C7_upsert_witness :
    handleUpdatePhoto pD [pA, pB, pC, pZero, r3]
        = pD :: [pA, pB, pC, pZero, r3]
    ∧ (handleUpdatePhoto pD [pA, pB, pC, pZero, r3]).length = 6
    ∧ (handleUpdatePhoto pD [pA, pB, pC, pZero, r3])[0]? = some pD := by
  have h := (C7_upsert pD [pA, pB, pC, pZero, r3]).2 (by decide)
  exact ⟨h.1, h.2.1, h.2.2.1⟩

/-- C3: quota recovery.  When the first write fails with the quota
error and the collection holds at least one inline photo, the retried
write carries exactly the network-referenced photos — zero inline
entries, every original network entry, in the original relative order
(a sublist of the collection) — and, the retry succeeding, the
persisted content is that cleaned list and the session is notified of
the destructive cleanup followed by the reload.  When no photo is
inline, nothing is eligible for eviction: the terminal
storage-exhausted notice is surfaced and the persisted content is left
untouched. -/
theorem C3_quota_recovery (write : List Photo → WriteResult)
    (prior : Option (List Photo)) (photos : List Photo)
    (hq : write photos = WriteResult.quota) :
    (photos.any isInline = true →
        write (photos.filter fun p => !(isInline p)) = WriteResult.ok →
        saveWithRecovery write prior photos
            = (some (photos.filter fun p => !(isInline p)),
               SaveNotice.cleanedAndReloaded)
          ∧ (∀ p ∈ photos.filter fun p => !(isInline p), isInline p = false)
          ∧ (∀ p ∈ photos, isInline p = false →
              p ∈ photos.filter fun p => !(isInline p))
          ∧ (photos.filter fun p => !(isInline p)).Sublist photos)
    ∧ (photos.any isInline = false →
        saveWithRecovery write prior photos
          = (prior, SaveNotice.exhaustedNoEvict)) := by
  constructor
  · intro hinl hretry
    have hlt : (photos.filter fun p => !(isInline p)).length < photos.length := by
      rw [length_filter_lt_iff_any]
      simpa using hinl
    refine ⟨?_, ?_, ?_, List.filter_sublist photos⟩
    · rw [saveWithRecovery, hq]
      simp only [if_pos hlt, hretry]
    · intro p hp
      simpa using (List.mem_filter.mp hp).2
    · intro p hp hni
      exact List.mem_filter.mpr ⟨hp, by simp [hni]⟩
  · intro hnone
    have hfeq : (photos.filter fun p => !(isInline p)) = photos := by
      rw [List.filter_eq_self]
      intro a ha
      have : isInline a = false := by
        by_contra hc
        have : photos.any isInline = true :=
          List.any_eq_true.mpr ⟨a, ha, by simpa using hc⟩
        rw [this] at hnone
        exact Bool.noConfusion hnone
      simp [this]
    have hnlt : ¬ (photos.filter fun p => !(isInline p)).length
        < photos.length := by
      rw [hfeq]
      exact lt_irrefl _
    rw [saveWithRecovery, hq]
    simp only [if_neg hnlt]

/-- C3 witness: the recovery protocol on the concrete collection
`[pInline, pNet]` with a store that rejects the two-photo write and
accepts the one-photo retry, and the exhausted branch on the
all-network collection `[pNet]` with a store that always rejects. -/
theorem C3_quota_recovery_witness :
    saveWithRecovery writeSmallOk none [pInline, pNet]
        = (some [pNet], SaveNotice.cleanedAndReloaded)
    ∧ saveWithRecovery writeAlwaysQuota (some []) [pNet]
        = (some [], SaveNotice.exhaustedNoEvict) := by
  have hfil : ([pInline, pNet].filter fun p => !(isInline p)) = [pNet] := by
    rw [List.filter_cons_of_neg (by simp [isInline_pInline]),
        List.filter_cons_of_pos (by simp [isInline_pNet]), List.filter_nil]
  constructor
  · have h := (C3_quota_recovery writeSmallOk none [pInline, pNet]
      (by decide)).1 (by simp [List.any_cons, isInline_pInline])
      (by rw [hfil]; decide)
    rw [h.1, hfil]
  · have h := (C3_quota_recovery writeAlwaysQuota (some []) [pNet] rfl).2
      (by simp [List.any_cons, isInline_pNet])
    exact h

/-- C4 counterexample: the stored value `[1]` is present, parses, and
is an array, but is not a valid sequence of Photo-shaped records; the
claim says `load` must then return the seed collection, yet the code
returns the stored array as-is — the only validation performed is
`Array.isArray`. -/
theorem C4_load_counterexample :
    specValidPhotoSequence (JsonVal.jarr [JsonVal.jnum 1]) = false
    ∧ load (INITIAL_PHOTOS fun _ => (0, 0))
        (StorageSlot.value (JsonVal.jarr [JsonVal.jnum 1]))
        = Sum.inl [JsonVal.jnum 1]
    ∧ load (INITIAL_PHOTOS fun _ => (0, 0))
        (StorageSlot.value (JsonVal.jarr [JsonVal.jnum 1]))
        ≠ Sum.inr (INITIAL_PHOTOS fun _ => (0, 0)) :=
  ⟨rfl, rfl, fun h => Sum.noConfusion h⟩

/-- C4 (amended): `load` returns the previously saved value exactly
when it is present and parses to an array — regardless of whether its
elements are Photo-shaped; for every other stored state (absent,
unparsable, or parsing to a non-array) it returns the seed collection,
and no parse failure propagates (`load` is total). -/
theorem C4_load_array_only (seed : List Photo) :
    (∀ elems, load seed (StorageSlot.value (JsonVal.jarr elems))
        = Sum.inl elems)
    ∧ load seed StorageSlot.absent = Sum.inr seed
    ∧ load seed StorageSlot.corrupt = Sum.inr seed
    ∧ (∀ v, isArray v = false →
        load seed (StorageSlot.value v) = Sum.inr seed) := by
  refine ⟨fun _ => rfl, rfl, rfl, fun v hv => ?_⟩
  cases v with
  | jarr elems => exact absurd hv (by simp [isArray])
  | jnull => rfl
  | jbool b => rfl
  | jnum q => rfl
  | jstr s => rfl
  | jobj fields => rfl

/-- C4 witness: the amended contract instantiated at a concrete
non-array stored value and the empty seed. -/
theorem C4_load_array_only_witness :
    load [] (StorageSlot.value (JsonVal.jstr "x")) = Sum.inr []
    ∧ isArray (JsonVal.jstr "x") = false :=
  ⟨(C4_load_array_only []).2.2.2 (JsonVal.jstr "x") rfl, rfl⟩

end Lumina
